import Mathlib

/-!
Shallow embedding of the deterministic event-sourced scheduler in
`src/src/engine.ts` (the `Timeline` class and its `enqueueEvent` / `run`
members, plus the `sanitizeEvent` helper), for checking the specification's
claims about it.

Modelling choices, documented once here:

* TS `unknown` values carried by events are modelled by the inductive
  `Value` (undefined, numbers, strings, booleans); `assert.deepStrictEqual`
  becomes decidable equality on the sanitized events.
* Callback closures crossing the engine are opaque to the engine except for
  the forwarding closure the engine itself builds at engine.ts:165
  (inside the `valueIsTaskId` branch of `PromiseResolve`/`TimerResolve`).
  `Callback.ext id` is an opaque external callback (sandbox-provided);
  `Callback.forward taskId` is the engine's forwarding closure, whose body
  (enqueue a `PromiseResolve` for `taskId` with the delivered value) is
  part of the engine and is therefore modelled.
* The run loop `Timeline.run` is single-threaded and cooperative; its
  `await setImmediate` ticks are ordering barriers that let no other code
  of the engine run in between (the only other actors are the real-time
  timer bodies, engine.ts:217-226, modelled separately as `fireTimer`).
  The inner `for` loop draining the history is therefore embedded as the
  sequential, fueled interpreter `drain`; a pending timer elapsing is the
  external step `fireTimer`, which appends a `TimerResolve` event exactly
  as the timer body does.
* Thrown JS errors are modelled with `Except`: `InvalidSchedulerState`
  (engine.ts:70), the `AssertionError` thrown by `assert.deepStrictEqual`
  (engine.ts:137), and the `TypeError` raised by reading `.type` of
  `undefined` when the replay cursor runs off the end of the history
  (engine.ts:131). `fuelExhausted` is an artifact of the fueled
  recursion, never reached with sufficient fuel.
-/

namespace Engine

/-- A runtime value carried in an event's `value` field (TS `unknown`). -/
inductive Value
  | undef
  | num (n : Nat)
  | str (s : String)
  | bool (b : Bool)
deriving DecidableEq

/-- A callback closure held by an event or a task state.  `ext id` is an
opaque callback provided from outside the engine (sandbox code); `forward
taskId` is the forwarding closure the engine itself creates at
engine.ts:165, which enqueues a `PromiseResolve` for `taskId` with the
value it is invoked with. -/
inductive Callback
  | ext (id : Nat)
  | forward (taskId : Nat)
deriving DecidableEq

/-- The event union of engine.ts:18-68.  The TS `Event` union at
engine.ts:61-68 omits `TimerCancelEvent`, although the interface is
declared at engine.ts:49-52; we include the constructor so that claims
about cancellation can be stated, and the run loop treats it the way the
JS `switch` would at runtime: no case matches, so it is a no-op. -/
inductive Event
  | promiseCreate
  | promiseResolve (taskId : Nat) (valueIsTaskId : Bool) (value : Value)
  | promiseRegister (taskId : Nat) (callback : Callback)
  | promiseComplete (taskId : Nat) (valueIsTaskId : Bool) (value : Value)
      (callbacks : List Callback)
  | timerStart (ms : Nat) (callback : Callback)
  | timerCancel (timerId : Nat)
  | timerResolve (taskId : Nat) (valueIsTaskId : Bool) (value : Value)
deriving DecidableEq

/-- The TS discriminant string of an event (its `type` field). -/
def Event.type : Event → String
  | .promiseCreate => "PromiseCreate"
  | .promiseResolve _ _ _ => "PromiseResolve"
  | .promiseRegister _ _ => "PromiseRegister"
  | .promiseComplete _ _ _ _ => "PromiseComplete"
  | .timerStart _ _ => "TimerStart"
  | .timerCancel _ => "TimerCancel"
  | .timerResolve _ _ _ => "TimerResolve"

/-- Whether an event is a `TimerResolve` (the test of the fast-forward
loop at engine.ts:131). -/
def Event.isTimerResolve : Event → Bool
  | .timerResolve _ _ _ => true
  | _ => false

/-- An event with its `callback` / `callbacks` fields removed, the image
of `sanitizeEvent` (engine.ts:100-103). -/
inductive SanitizedEvent
  | promiseCreate
  | promiseResolve (taskId : Nat) (valueIsTaskId : Bool) (value : Value)
  | promiseRegister (taskId : Nat)
  | promiseComplete (taskId : Nat) (valueIsTaskId : Bool) (value : Value)
  | timerStart (ms : Nat)
  | timerCancel (timerId : Nat)
  | timerResolve (taskId : Nat) (valueIsTaskId : Bool) (value : Value)
deriving DecidableEq

/-- Embeds `sanitizeEvent` (engine.ts:100-103): destructures away the `callback`
and `callbacks` fields and keeps everything else. -/
def sanitizeEvent : Event → SanitizedEvent
  | .promiseCreate => .promiseCreate
  | .promiseResolve taskId valueIsTaskId value =>
      .promiseResolve taskId valueIsTaskId value
  | .promiseRegister taskId _ => .promiseRegister taskId
  | .promiseComplete taskId valueIsTaskId value _ =>
      .promiseComplete taskId valueIsTaskId value
  | .timerStart ms _ => .timerStart ms
  | .timerCancel timerId => .timerCancel timerId
  | .timerResolve taskId valueIsTaskId value =>
      .timerResolve taskId valueIsTaskId value

/-- Errors the engine can raise.  `invalidSchedulerState` is the
`InvalidSchedulerState` class of engine.ts:70-72 (whose `name` field is
the string "InvalidSchedulerState"); `assertionError` is the node
`AssertionError` thrown by `assert.deepStrictEqual` at engine.ts:137;
`typeError` is the `TypeError` raised by reading `.type` of `undefined`
when the replay cursor runs past the end of the history at engine.ts:131;
`fuelExhausted` is a model artifact of fueled recursion, unreachable with
sufficient fuel. -/
inductive EngErr
  | invalidSchedulerState (msg : String)
  | assertionError
  | typeError
  | fuelExhausted
deriving DecidableEq

/-- The `name` property of the thrown JS error object. -/
def EngErr.name : EngErr → String
  | .invalidSchedulerState _ => "InvalidSchedulerState"
  | .assertionError => "AssertionError"
  | .typeError => "TypeError"
  | .fuelExhausted => "FuelExhausted"

/-- Task states (engine.ts:74-92). -/
inductive TaskState
  | created (callbacks : List Callback)
  | resolved (callbacks : List Callback) (valueIsTaskId : Bool) (value : Value)
  | rejected (callbacks : List Callback) (error : Value)
deriving DecidableEq

/-- The `callbacks` field shared by the three task-state records. -/
def TaskState.callbacks : TaskState → List Callback
  | .created cbs => cbs
  | .resolved cbs _ _ => cbs
  | .rejected cbs _ => cbs

/-- The `tasks` map of `SchedulerState` (a JS `Map<number, TaskState>`),
as an association list in insertion order. -/
abbrev TaskMap := List (Nat × TaskState)

/-- JS `Map.get`. -/
def mapGet (m : TaskMap) (k : Nat) : Option TaskState :=
  (List.find? (fun p => p.1 == k) m).map (fun p => p.2)

/-- JS `Map.set`: update in place when the key exists (keeping insertion
order), append otherwise. -/
def mapSet (m : TaskMap) (k : Nat) (v : TaskState) : TaskMap :=
  if List.any m (fun p => p.1 == k) then
    List.map (fun p => if p.1 == k then (k, v) else p) m
  else
    m ++ [(k, v)]

/-- The state of one `Timeline` object (engine.ts:105-113) together with
the run-local data of `Timeline.run`: `pendingTimers` models the
`pendingPromises` array (one entry `(taskId, ms)` per real-time wait
started at engine.ts:216-227), and `trace` records every callback
invocation made by `PromiseComplete` processing, in order, with the
arguments `(valueIsTaskId, value)` it was passed — this is the embedding's
observation channel for opaque external callbacks. -/
structure Timeline where
  history : List Event
  tasks : TaskMap
  isReplay : Bool
  replayIndex : Int
  pendingTimers : List (Nat × Nat)
  trace : List (Callback × Bool × Value)
deriving DecidableEq

/-- The `Timeline` constructor (engine.ts:110-113): `isReplay` is true
exactly when the supplied history is non-empty, and the replay cursor
starts at `-1`. -/
def Timeline.init (history : List Event) : Timeline :=
  { history := history
    tasks := []
    isReplay := !history.isEmpty
    replayIndex := -1
    pendingTimers := []
    trace := [] }

/-- A live `Timeline` whose history already holds the events that the
sandboxed `main()` enqueued before `Timeline.run` was called (in
`Workflow.run`, engine.ts:390-397, `main` executes first and synchronously
appends events through the injected primitives; only then does
`timeline.run()` start draining). -/
def liveTimeline (history : List Event) : Timeline :=
  { history := history
    tasks := []
    isReplay := false
    replayIndex := -1
    pendingTimers := []
    trace := [] }

/-- Indexing the history array with a possibly negative JS index:
`history[i]` is `undefined` for out-of-range `i`. -/
def histGet (h : List Event) (i : Int) : Option Event :=
  if i < 0 then none else h.get? i.toNat

/-- The fast-forward loop of engine.ts:131:
`while (this.history[++this.state.replayIndex].type === 'TimerResolve') ;`.
Starting from cursor `i`, pre-increment and skip while the entry is a
`TimerResolve`; reading past the end of the array reads `.type` of
`undefined`, a `TypeError`.  Fueled; `history.length + 1` fuel always
suffices from a cursor `≥ -1`. -/
def advanceCursor (h : List Event) (i : Int) : Nat → Except EngErr Int
  | 0 => .error .fuelExhausted
  | fuel + 1 =>
    match histGet h (i + 1) with
    | none => .error .typeError
    | some e =>
      if e.isTimerResolve then advanceCursor h (i + 1) fuel else .ok (i + 1)

/-- Embeds `Timeline.enqueueEvent` (engine.ts:126-145).  In replay mode:
fast-forward the cursor past `TimerResolve` entries, compare the stored
event's type (throwing `InvalidSchedulerState` with the expected type,
actual type and index on mismatch), then `assert.deepStrictEqual` the
sanitized events (throwing `AssertionError` on mismatch), then replace the
stored event with the live one and return the cursor index.  In live mode:
append unconditionally and return the new index.  (The `onEnqueue` hook at
engine.ts:127-129 only wakes the outer run loop and changes no state; the
sequential model needs no counterpart for it.) -/
def enqueueEvent (t : Timeline) (event : Event) : Except EngErr (Nat × Timeline) :=
  if t.isReplay then
    match advanceCursor t.history t.replayIndex (t.history.length + 1) with
    | .error e => .error e
    | .ok j =>
      match histGet t.history j with
      | none => .error .typeError
      | some historyEvent =>
        if historyEvent.type ≠ event.type then
          .error (.invalidSchedulerState
            ("Expected " ++ historyEvent.type ++ " got " ++ event.type ++
              " at history index " ++ toString j))
        else if sanitizeEvent event = sanitizeEvent historyEvent then
          .ok (j.toNat,
            { t with history := t.history.set j.toNat event, replayIndex := j })
        else
          .error .assertionError
  else
    .ok (t.history.length, { t with history := t.history ++ [event] })

/-- Models the unchecked TS cast `event.value as number` at engine.ts:164.
Every value the engine itself places in a `valueIsTaskId` position is a
number (a task id); for non-numbers the cast is undefined behaviour in
spirit and we return 0. -/
def Value.castTaskId : Value → Nat
  | .num n => n
  | _ => 0

/-- Outcome of processing one event: keep going, or the `return` at
engine.ts:235 (root task completed). -/
inductive StepResult
  | next
  | rootCompleted
deriving DecidableEq

/-- Invoking one callback from `PromiseComplete` processing
(engine.ts:231-233): the invocation is recorded in the trace; the
engine's own forwarding closure (engine.ts:165-172) additionally enqueues
a `PromiseResolve` for its captured task id; external callbacks are
opaque to the engine. -/
def invokeCallback (t : Timeline) (cb : Callback) (valueIsTaskId : Bool)
    (value : Value) : Except EngErr Timeline :=
  let t1 := { t with trace := t.trace ++ [(cb, valueIsTaskId, value)] }
  match cb with
  | .ext _ => .ok t1
  | .forward taskId =>
    match enqueueEvent t1 (.promiseResolve taskId valueIsTaskId value) with
    | .error e => .error e
    | .ok (_, t2) => .ok t2

/-- Invoke a list of callbacks in order (the `for` loop at
engine.ts:231-233). -/
def invokeCallbacks (t : Timeline) (cbs : List Callback) (valueIsTaskId : Bool)
    (value : Value) : Except EngErr Timeline :=
  match cbs with
  | [] => .ok t
  | cb :: rest =>
    match invokeCallback t cb valueIsTaskId value with
    | .error e => .error e
    | .ok t1 => invokeCallbacks t1 rest valueIsTaskId value

/-- Embeds `getTaskState` (engine.ts:115-119). -/
def getTaskState (t : Timeline) (taskId : Nat) : Except EngErr TaskState :=
  match mapGet t.tasks taskId with
  | none =>
    .error (.invalidSchedulerState ("No task state for task Id: " ++ toString taskId))
  | some task => .ok task

/-- One iteration of the `switch` in `Timeline.run` (engine.ts:154-239),
processing the event at `eventIndex`. -/
def processEvent (t : Timeline) (eventIndex : Nat) (event : Event) :
    Except EngErr (StepResult × Timeline) :=
  match event with
  | .promiseCreate =>
    .ok (.next, { t with tasks := mapSet t.tasks eventIndex (.created []) })
  | .timerResolve taskId valueIsTaskId value
  | .promiseResolve taskId valueIsTaskId value =>
    match getTaskState t taskId with
    | .error e => .error e
    | .ok task =>
      if valueIsTaskId then
        match enqueueEvent t (.promiseRegister value.castTaskId (.forward taskId)) with
        | .error e => .error e
        | .ok (_, t1) => .ok (.next, t1)
      else
        let t1 := { t with tasks := mapSet t.tasks taskId (.resolved [] false value) }
        if task.callbacks.length > 0 then
          match enqueueEvent t1
              (.promiseComplete taskId false value task.callbacks) with
          | .error e => .error e
          | .ok (_, t2) => .ok (.next, t2)
        else
          .ok (.next, t1)
  | .promiseRegister taskId callback =>
    match getTaskState t taskId with
    | .error e => .error e
    | .ok task =>
      match task with
      | .resolved _ valueIsTaskId value =>
        match enqueueEvent t (.promiseComplete taskId valueIsTaskId value [callback]) with
        | .error e => .error e
        | .ok (_, t1) => .ok (.next, t1)
      | .created cbs =>
        .ok (.next,
          { t with tasks := mapSet t.tasks taskId (.created (cbs ++ [callback])) })
      | .rejected _ _ => .ok (.next, t)
  | .timerStart ms callback =>
    match enqueueEvent t .promiseCreate with
    | .error e => .error e
    | .ok (taskId, t1) =>
      match enqueueEvent t1 (.promiseRegister taskId callback) with
      | .error e => .error e
      | .ok (_, t2) =>
        if !t2.isReplay then
          .ok (.next, { t2 with pendingTimers := t2.pendingTimers ++ [(taskId, ms)] })
        else
          .ok (.next, t2)
  | .timerCancel _ => .ok (.next, t)
  | .promiseComplete taskId valueIsTaskId value callbacks =>
    match invokeCallbacks t callbacks valueIsTaskId value with
    | .error e => .error e
    | .ok t1 =>
      if taskId == 0 then .ok (.rootCompleted, t1) else .ok (.next, t1)

/-- Outcome of draining the history: the root task completed (the
`return` at engine.ts:235), or `eventIndex` reached the end of history
(the inner `for` loop of engine.ts:151 finished its pass). -/
inductive DrainResult
  | rootCompleted
  | drained
deriving DecidableEq

/-- The inner `for` loop of `Timeline.run` (engine.ts:151-240): process
events from `eventIndex` until the history (which may grow while being
processed) is exhausted or the root task completes.  Fueled: each step
consumes one unit. -/
def drain : Nat → Timeline → Nat → Except EngErr (DrainResult × Timeline)
  | 0, _, _ => .error .fuelExhausted
  | fuel + 1, t, eventIndex =>
    match t.history.get? eventIndex with
    | none => .ok (.drained, t)
    | some event =>
      match processEvent t eventIndex event with
      | .error e => .error e
      | .ok (.rootCompleted, t1) => .ok (.rootCompleted, t1)
      | .ok (.next, t1) => drain fuel t1 (eventIndex + 1)

/-- The body of a pending real-time wait after its timeout elapses
(engine.ts:217-226): unconditionally enqueue a `TimerResolve` for the
synthesized task, with `value: undefined`, `valueIsTaskId: false`.  Note
it consults no cancellation information. -/
def fireTimer (t : Timeline) (taskId : Nat) : Except EngErr (Nat × Timeline) :=
  enqueueEvent t (.timerResolve taskId false .undef)

/-! ## Concrete scenario fixtures used by witnesses and counterexamples -/

/-- Replay of a one-event history whose recorded event is a
`PromiseCreate`. -/
def replayOfCreate : Timeline := Timeline.init [.promiseCreate]

/-- Replay of a one-event history recording `PromiseResolve 0 false 2`. -/
def replayOfResolveTwo : Timeline := Timeline.init [.promiseResolve 0 false (.num 2)]

/-- Replay of a history starting with a `TimerResolve` entry to
fast-forward over. -/
def replayAfterTimer : Timeline :=
  Timeline.init [.timerResolve 0 false .undef, .promiseCreate]

/-- Mid-replay state: the `TimerStart` at index 0 has been matched
(cursor at 0) and its synthesized events are recorded at indices 1-2. -/
def replayTimerStart : Timeline :=
  { history := [.timerStart 5 (.ext 1), .promiseCreate, .promiseRegister 1 (.ext 1)]
    tasks := []
    isReplay := true
    replayIndex := 0
    pendingTimers := []
    trace := [] }

/-- Live state about to process a root `PromiseComplete` while another
task and a real-time wait are still pending. -/
def rootPending : Timeline :=
  { history := [.promiseComplete 0 false (.num 7) [.ext 3], .promiseCreate]
    tasks := [(5, .created [.ext 9])]
    isReplay := false
    replayIndex := -1
    pendingTimers := [(5, 10)]
    trace := [] }

/-- Live state containing a task in the `REJECTED` state. -/
def withRejected : Timeline :=
  { history := []
    tasks := [(3, .rejected [] (.str "boom"))]
    isReplay := false
    replayIndex := -1
    pendingTimers := []
    trace := [] }

/-- Live state with two pending tasks, as left by processing two
`PromiseCreate` events of the recorded history. -/
def twoCreated : Timeline :=
  { history := [.promiseCreate, .promiseCreate, .promiseResolve 0 true (.num 1)]
    tasks := [(0, .created []), (1, .created [])]
    isReplay := false
    replayIndex := -1
    pendingTimers := []
    trace := [] }

/-- The state after draining the timer-cancellation history
`[TimerStart(10, cb), TimerCancel(0)]` live: the synthesized task 2 is
pending and its real-time wait is still in `pendingTimers`. -/
def cancelDrained : Timeline :=
  { history := [.timerStart 10 (.ext 0), .timerCancel 0, .promiseCreate,
      .promiseRegister 2 (.ext 0)]
    tasks := [(2, .created [.ext 0])]
    isReplay := false
    replayIndex := -1
    pendingTimers := [(2, 10)]
    trace := [] }

/-! ## Helper lemmas -/

/-- A successful `histGet` means the index is non-negative and in range. -/
theorem histGet_some {h : List Event} {i : Int} {e : Event}
    (hg : histGet h i = some e) : 0 ≤ i ∧ h.get? i.toNat = some e := by
  unfold histGet at hg
  split at hg
  · simp at hg
  · exact ⟨by omega, hg⟩

/-- Characterization of the fast-forward loop: a successful `advanceCursor`
returns a strictly later index holding a non-`TimerResolve` event, and
every index strictly between the old cursor and the result holds a
`TimerResolve` event. -/
theorem advanceCursor_spec (h : List Event) :
    ∀ (fuel : Nat) (i j : Int), advanceCursor h i fuel = .ok j →
      i < j
      ∧ (∃ e, histGet h j = some e ∧ e.isTimerResolve = false)
      ∧ ∀ k : Int, i < k → k < j →
          ∃ e, histGet h k = some e ∧ e.isTimerResolve = true := by
  intro fuel
  induction fuel with
  | zero => intro i j hok; simp [advanceCursor] at hok
  | succ n ih =>
    intro i j hok
    unfold advanceCursor at hok
    cases hg : histGet h (i + 1) with
    | none => rw [hg] at hok; simp at hok
    | some e =>
      rw [hg] at hok
      cases ht : e.isTimerResolve with
      | false =>
        simp [ht] at hok
        subst hok
        refine ⟨by omega, ⟨e, hg, ht⟩, ?_⟩
        intro k hk1 hk2
        omega
      | true =>
        simp [ht] at hok
        obtain ⟨h1, h2, h3⟩ := ih (i + 1) j hok
        refine ⟨by omega, h2, ?_⟩
        intro k hk1 hk2
        rcases (by omega : k = i + 1 ∨ i + 1 < k) with hk | hk
        · exact ⟨e, hk ▸ hg, ht⟩
        · exact h3 k hk hk2

/-- Replacing the entry for a present key makes lookup return the new
value (the update branch of JS `Map.set`). -/
theorem mapGet_map_replace {m : TaskMap} {k : Nat} (v : TaskState)
    (h : List.any m (fun p => p.1 == k) = true) :
    mapGet (List.map (fun p => if p.1 == k then (k, v) else p) m) k = some v := by
  induction m with
  | nil => simp at h
  | cons p rest ih =>
    by_cases hp : p.1 = k
    · unfold mapGet
      rw [List.map_cons, if_pos (by simp [hp]), List.find?_cons_of_pos _ (by simp)]
      rfl
    · rw [List.any_cons] at h
      have hr : List.any rest (fun q => q.1 == k) = true := by
        cases hra : List.any rest (fun q => q.1 == k)
        · rw [hra, Bool.or_false] at h
          simp [hp] at h
        · rfl
      unfold mapGet
      rw [List.map_cons, if_neg (by simp [hp]),
        List.find?_cons_of_neg _ (by simp [hp])]
      simpa [mapGet] using ih hr

/-- Appending an entry for an absent key makes lookup return the new
value (the insert branch of JS `Map.set`). -/
theorem mapGet_append_new {m : TaskMap} {k : Nat} (v : TaskState)
    (h : List.any m (fun p => p.1 == k) = false) :
    mapGet (m ++ [(k, v)]) k = some v := by
  induction m with
  | nil =>
    unfold mapGet
    rw [List.nil_append, List.find?_cons_of_pos _ (by simp)]
    rfl
  | cons p rest ih =>
    rw [List.any_cons] at h
    have hp : (p.1 == k) = false := by
      cases hpk : (p.1 == k)
      · rfl
      · rw [hpk, Bool.true_or] at h
        exact absurd h (by simp)
    have hr : List.any rest (fun q => q.1 == k) = false := by
      cases hra : List.any rest (fun q => q.1 == k)
      · rfl
      · rw [hra, Bool.or_true] at h
        exact absurd h (by simp)
    unfold mapGet
    rw [List.cons_append, List.find?_cons_of_neg _ (by simp [hp])]
    simpa [mapGet] using ih hr

/-- Looking up the key just written by `mapSet` yields the written value. -/
theorem mapGet_mapSet (m : TaskMap) (k : Nat) (v : TaskState) :
    mapGet (mapSet m k v) k = some v := by
  unfold mapSet
  cases h : List.any m (fun p => p.1 == k) with
  | true =>
    simp only [h, if_true]
    exact mapGet_map_replace v h
  | false =>
    simp only [h, Bool.false_eq_true, if_false]
    exact mapGet_append_new v h

/-- Destructuring a successful live-mode append. -/
theorem enqueueEvent_live_ok {t : Timeline} {e : Event} {i : Nat} {t2 : Timeline}
    (hlive : t.isReplay = false) (h : enqueueEvent t e = .ok (i, t2)) :
    i = t.history.length ∧ t2 = { t with history := t.history ++ [e] } := by
  unfold enqueueEvent at h
  rw [hlive] at h
  simp only [Bool.false_eq_true, if_false, Except.ok.injEq, Prod.mk.injEq] at h
  refine ⟨h.1.symm, ?_⟩
  rw [hlive]
  exact h.2.symm

/-- Destructuring a successful replay-mode append: the cursor advanced to
some index `j`, the stored event there matched in type and sanitized
payload, and it was replaced in place by the live event. -/
theorem enqueueEvent_replay_ok {t : Timeline} {e : Event} {i : Nat} {t2 : Timeline}
    (hrep : t.isReplay = true) (h : enqueueEvent t e = .ok (i, t2)) :
    ∃ j : Int, advanceCursor t.history t.replayIndex (t.history.length + 1) = .ok j
      ∧ 0 ≤ j ∧ i = j.toNat
      ∧ ∃ he, histGet t.history j = some he
          ∧ he.type = e.type ∧ sanitizeEvent e = sanitizeEvent he
          ∧ t2 = { t with history := t.history.set j.toNat e, replayIndex := j } := by
  unfold enqueueEvent at h
  rw [hrep] at h
  simp only [if_true] at h
  split at h
  · simp at h
  · next j hadv =>
    split at h
    · simp at h
    · next he hg =>
      split at h
      · simp at h
      · next hty =>
        split at h
        · next hsan =>
          simp only [Except.ok.injEq, Prod.mk.injEq] at h
          refine ⟨j, hadv, (histGet_some hg).1, h.1.symm,
            he, hg, not_not.mp (fun hne => hty hne), hsan, ?_⟩
          rw [hrep]
          exact h.2.symm
        · simp at h

/-- Stability: `enqueueEvent` changes only the history and the replay cursor: task
states, pending timers, the trace and the mode are untouched. -/
theorem enqueueEvent_preserves {t : Timeline} {e : Event} {i : Nat} {t2 : Timeline}
    (h : enqueueEvent t e = .ok (i, t2)) :
    t2.isReplay = t.isReplay ∧ t2.pendingTimers = t.pendingTimers
      ∧ t2.tasks = t.tasks ∧ t2.trace = t.trace := by
  cases hrep : t.isReplay with
  | false =>
    obtain ⟨-, ht2⟩ := enqueueEvent_live_ok hrep h
    subst ht2
    exact ⟨hrep, rfl, rfl, rfl⟩
  | true =>
    obtain ⟨j, -, -, -, he, -, -, -, ht2⟩ := enqueueEvent_replay_ok hrep h
    subst ht2
    exact ⟨hrep, rfl, rfl, rfl⟩

/-- A successful append stores the appended event at the returned index,
in both modes (live: at the old length; replay: replacing the matched
entry at the cursor). -/
theorem enqueueEvent_ok_stored {t : Timeline} {e : Event} {i : Nat} {t2 : Timeline}
    (h : enqueueEvent t e = .ok (i, t2)) :
    t2.history.get? i = some e := by
  cases hrep : t.isReplay with
  | false =>
    obtain ⟨hi, ht2⟩ := enqueueEvent_live_ok hrep h
    subst ht2
    subst hi
    exact List.get?_concat_length t.history e
  | true =>
    obtain ⟨j, -, hj, hi, he, hg, -, -, ht2⟩ := enqueueEvent_replay_ok hrep h
    subst ht2
    subst hi
    have hb := (histGet_some hg).2
    have hlen : j.toNat < t.history.length := List.get?_eq_some.mp hb |>.1
    simpa using List.get?_set_eq_of_lt e hlen

/-! ## Claim theorems -/

/-- C1 counterexample: a replay-mode type mismatch does not fail with an
error named NonDeterminismError — no such class exists in the engine; the
error raised is an `InvalidSchedulerState`. -/
theorem replay_type_mismatch_not_nondeterminism_class :
    enqueueEvent replayOfCreate (.promiseResolve 0 false (.num 1))
      = .error (.invalidSchedulerState
          "Expected PromiseCreate got PromiseResolve at history index 0")
    ∧ EngErr.name (.invalidSchedulerState
          "Expected PromiseCreate got PromiseResolve at history index 0")
        ≠ "NonDeterminismError" := by
  refine ⟨rfl, ?_⟩
  intro hc
  simp [EngErr.name] at hc

/-- C1 (amended): a replay-mode append whose event type differs from the
recorded event at the cursor fails with `InvalidSchedulerState` whose
message reports the expected type, the actual type and the log index; a
payload-only mismatch (same type, different sanitized payload) fails with
the `AssertionError` of `assert.deepStrictEqual`, which carries neither
types nor index. -/
theorem replay_mismatch_error_classes (t : Timeline) (e : Event) (j : Int) (he : Event)
    (hrep : t.isReplay = true)
    (hadv : advanceCursor t.history t.replayIndex (t.history.length + 1) = .ok j)
    (hg : histGet t.history j = some he) :
    (he.type ≠ e.type →
       enqueueEvent t e = .error (.invalidSchedulerState
         ("Expected " ++ he.type ++ " got " ++ e.type ++
           " at history index " ++ toString j)))
  ∧ (he.type = e.type → sanitizeEvent e ≠ sanitizeEvent he →
       enqueueEvent t e = .error .assertionError) := by
  constructor
  · intro hty
    unfold enqueueEvent
    rw [hrep]
    simp only [if_true, hadv, hg]
    rw [if_pos hty]
  · intro hty hsan
    unfold enqueueEvent
    rw [hrep]
    simp only [if_true, hadv, hg]
    rw [if_neg (by simp [hty]), if_neg hsan]

/-- C1 witness: both amended branches at concrete inputs: a
`PromiseResolve` replayed against a recorded `PromiseCreate` raises the
indexed `InvalidSchedulerState`, and one replayed against a
`PromiseResolve` with a different value raises the `AssertionError`. -/
theorem replay_mismatch_error_classes_witness :
    enqueueEvent replayOfCreate (.promiseResolve 0 false (.num 1))
      = .error (.invalidSchedulerState
          "Expected PromiseCreate got PromiseResolve at history index 0")
  ∧ enqueueEvent replayOfResolveTwo (.promiseResolve 0 false (.num 1))
      = .error .assertionError := by
  constructor
  · have h := (replay_mismatch_error_classes replayOfCreate
      (.promiseResolve 0 false (.num 1)) 0 .promiseCreate rfl rfl rfl).1
      (by simp [Event.type])
    simpa using h
  · exact (replay_mismatch_error_classes replayOfResolveTwo
      (.promiseResolve 0 false (.num 1)) 0 (.promiseResolve 0 false (.num 2))
      rfl rfl rfl).2 rfl (by simp [sanitizeEvent])

/-- C2 (code bug): the `PromiseResolve`/`TimerResolve` handler never
checks the task's current state, so a second `PromiseResolve` for an
already-`RESOLVED` task overwrites its stored value: draining the live
history [PromiseCreate, PromiseResolve(0,false,1), PromiseResolve(0,false,2)]
leaves task 0 resolved with value 2, and processing the second resolve on
a state where task 0 is already resolved with 1 directly rewrites the
stored value to 2. -/
theorem double_resolve_overwrites_value :
    drain 10 (liveTimeline [.promiseCreate, .promiseResolve 0 false (.num 1),
        .promiseResolve 0 false (.num 2)]) 0
      = .ok (.drained,
          { history := [.promiseCreate, .promiseResolve 0 false (.num 1),
              .promiseResolve 0 false (.num 2)],
            tasks := [(0, .resolved [] false (.num 2))],
            isReplay := false, replayIndex := -1, pendingTimers := [], trace := [] })
  ∧ processEvent
      { history := [.promiseCreate, .promiseResolve 0 false (.num 1),
          .promiseResolve 0 false (.num 2)],
        tasks := [(0, .resolved [] false (.num 1))],
        isReplay := false, replayIndex := -1, pendingTimers := [], trace := [] }
      2 (.promiseResolve 0 false (.num 2))
    = .ok (.next,
        { history := [.promiseCreate, .promiseResolve 0 false (.num 1),
            .promiseResolve 0 false (.num 2)],
          tasks := [(0, .resolved [] false (.num 2))],
          isReplay := false, replayIndex := -1, pendingTimers := [], trace := [] }) :=
  ⟨rfl, rfl⟩

/-- C3: resolving task `a` with "value is task `b`" does not settle `a`
directly — the task map is unchanged and a forwarding `PromiseRegister`
on `b` is appended instead — and in the end-to-end chaining scenario the
outer task settles only via the forwarding callback after the inner task
settles, with equal final values. -/
theorem resolve_with_task_id_forwards (t : Timeline) (a b i : Nat)
    (task : TaskState) (v : Value)
    (hlive : t.isReplay = false) (htask : mapGet t.tasks a = some task) :
    processEvent t i (.promiseResolve a true (.num b))
      = .ok (.next, { t with history := t.history ++ [.promiseRegister b (.forward a)] })
  ∧ drain 20 (liveTimeline [.promiseCreate, .promiseCreate,
        .promiseResolve 0 true (.num 1), .promiseResolve 1 false v]) 0
      = .ok (.drained,
          { history := [.promiseCreate, .promiseCreate, .promiseResolve 0 true (.num 1),
              .promiseResolve 1 false v, .promiseRegister 1 (.forward 0),
              .promiseComplete 1 false v [.forward 0], .promiseResolve 0 false v],
            tasks := [(0, .resolved [] false v), (1, .resolved [] false v)],
            isReplay := false, replayIndex := -1, pendingTimers := [],
            trace := [(.forward 0, false, v)] }) := by
  constructor
  · simp [processEvent, getTaskState, htask, Value.castTaskId, enqueueEvent, hlive]
  · rfl

/-- C3 witness: the forwarding step at a concrete state (two pending
tasks, resolve task 0 with "value is task 1"), and the chaining scenario
at the concrete value 42. -/
theorem resolve_with_task_id_forwards_witness :
    processEvent twoCreated 2 (.promiseResolve 0 true (.num 1))
      = .ok (.next, { twoCreated with
          history := twoCreated.history ++ [.promiseRegister 1 (.forward 0)] })
  ∧ drain 20 (liveTimeline [.promiseCreate, .promiseCreate,
        .promiseResolve 0 true (.num 1), .promiseResolve 1 false (.num 42)]) 0
      = .ok (.drained,
          { history := [.promiseCreate, .promiseCreate, .promiseResolve 0 true (.num 1),
              .promiseResolve 1 false (.num 42), .promiseRegister 1 (.forward 0),
              .promiseComplete 1 false (.num 42) [.forward 0],
              .promiseResolve 0 false (.num 42)],
            tasks := [(0, .resolved [] false (.num 42)), (1, .resolved [] false (.num 42))],
            isReplay := false, replayIndex := -1, pendingTimers := [],
            trace := [(.forward 0, false, .num 42)] }) := by
  have h := resolve_with_task_id_forwards twoCreated 0 1 2 (.created []) (.num 42)
    rfl rfl
  exact ⟨h.1, h.2⟩

/-- C4: the append contract.  If `enqueueEvent` succeeds with index `i`:
in live mode, `i` is the history length before the append and the event
was appended unconditionally; in replay mode, the cursor advanced past a
(possibly empty) run of `TimerResolve` entries to `i`, every skipped
entry being a `TimerResolve`, the recorded event at `i` is a
non-`TimerResolve` event matching the incoming event in type and
sanitized payload, and it was replaced in place by the live event with
the cursor left at `i`. -/
theorem enqueueEvent_contract (t : Timeline) (e : Event) (i : Nat) (t2 : Timeline)
    (h : enqueueEvent t e = .ok (i, t2)) :
    (t.isReplay = false →
       i = t.history.length ∧ t2 = { t with history := t.history ++ [e] })
  ∧ (t.isReplay = true →
       t.replayIndex < (i : Int)
       ∧ (∀ k : Int, t.replayIndex < k → k < (i : Int) →
            ∃ he, histGet t.history k = some he ∧ he.isTimerResolve = true)
       ∧ (∃ he, t.history.get? i = some he ∧ he.isTimerResolve = false
            ∧ he.type = e.type ∧ sanitizeEvent e = sanitizeEvent he)
       ∧ t2 = { t with history := t.history.set i e, replayIndex := (i : Int) }) := by
  constructor
  · intro hlive
    exact enqueueEvent_live_ok hlive h
  · intro hrep
    obtain ⟨j, hadv, hj, hi, he, hg, hty, hsan, ht2⟩ := enqueueEvent_replay_ok hrep h
    have hcast : (i : Int) = j := by omega
    obtain ⟨hlt, ⟨e2, hg2, htr2⟩, hbetween⟩ :=
      advanceCursor_spec t.history (t.history.length + 1) t.replayIndex j hadv
    have he2 : e2 = he := by
      rw [hg] at hg2
      exact ((Option.some.injEq _ _).mp hg2).symm
    refine ⟨by omega, ?_, ⟨he, ?_, by rw [← he2]; exact htr2, hty, hsan⟩, ?_⟩
    · intro k hk1 hk2
      exact hbetween k hk1 (by omega)
    · have := (histGet_some hg).2
      rwa [hi]
    · rw [ht2, hcast]
      have : j.toNat = i := hi.symm
      rw [this]

/-- C4 witness: live append into an empty timeline returns index 0 and
appends; replay append over a history starting with a `TimerResolve`
fast-forwards to index 1 where a matching `PromiseCreate` is recorded. -/
theorem enqueueEvent_contract_witness :
    ((0 : Nat) = (liveTimeline []).history.length
       ∧ liveTimeline [.promiseCreate]
           = { liveTimeline [] with history := (liveTimeline []).history ++ [.promiseCreate] })
  ∧ (replayAfterTimer.replayIndex < (((1 : Nat)) : Int)
       ∧ (∃ he, replayAfterTimer.history.get? 1 = some he
            ∧ he.isTimerResolve = false
            ∧ he.type = Event.type .promiseCreate
            ∧ sanitizeEvent .promiseCreate = sanitizeEvent he)) := by
  constructor
  · exact (enqueueEvent_contract (liveTimeline []) .promiseCreate 0
      (liveTimeline [.promiseCreate]) rfl).1 rfl
  · have h := (enqueueEvent_contract replayAfterTimer .promiseCreate 1
      ⟨[.timerResolve 0 false .undef, .promiseCreate], [], true, 1, [], []⟩ rfl).2 rfl
    exact ⟨h.1, h.2.2.1⟩

/-- C5: processing a `PromiseComplete` for task id 0 (the root task, the
promise created by running main) terminates the run loop successfully —
immediately, regardless of remaining history entries, other tasks still
pending in the task map, or pending real-time waits. -/
theorem root_completion_terminates (fuel : Nat) (t t1 : Timeline) (i : Nat)
    (b : Bool) (v : Value) (cbs : List Callback)
    (hev : t.history.get? i = some (.promiseComplete 0 b v cbs))
    (hcb : invokeCallbacks t cbs b v = .ok t1) :
    drain (fuel + 1) t i = .ok (.rootCompleted, t1) := by
  unfold drain
  rw [hev]
  simp [processEvent, hcb]

/-- C5 witness: a root `PromiseComplete` at index 0 ends the run at once
even though task 5 is still pending, a timer wait is outstanding, and a
further history entry exists. -/
theorem root_completion_terminates_witness :
    drain 1 rootPending 0
      = .ok (.rootCompleted, { rootPending with trace := [(.ext 3, false, .num 7)] }) :=
  root_completion_terminates 0 rootPending
    { rootPending with trace := [(.ext 3, false, .num 7)] } 0 false (.num 7) [.ext 3]
    rfl rfl

/-- C6: callbacks registered in order c1, c2, c3 on a pending task fire as
a single batch — one synthesized `PromiseComplete` carrying all three —
in registration order, each receiving the settled value. -/
theorem callback_order_batch (i1 i2 i3 : Nat) (v : Value) :
    drain 20 (liveTimeline [.promiseCreate,
        .promiseRegister 0 (.ext i1), .promiseRegister 0 (.ext i2),
        .promiseRegister 0 (.ext i3), .promiseResolve 0 false v]) 0
      = .ok (.rootCompleted,
          { history := [.promiseCreate, .promiseRegister 0 (.ext i1),
              .promiseRegister 0 (.ext i2), .promiseRegister 0 (.ext i3),
              .promiseResolve 0 false v,
              .promiseComplete 0 false v [.ext i1, .ext i2, .ext i3]],
            tasks := [(0, .resolved [] false v)],
            isReplay := false, replayIndex := -1, pendingTimers := [],
            trace := [(.ext i1, false, v), (.ext i2, false, v), (.ext i3, false, v)] }) :=
  rfl

/-- C7 (code bug): the scheduler does not act on timer cancellation: the
run loop switch has no `TimerCancel` case (such an event is a no-op and
`TimerCancelEvent` is even excluded from the TS `Event` union), so after
draining `[TimerStart(10ms), TimerCancel(0)]` live, the synthesized
timer's real-time wait is still pending, and when it elapses it still
appends a stale `TimerResolve` for the synthesized task 2. -/
theorem timer_cancel_not_suppressed :
    (∀ (t : Timeline) (i n : Nat), processEvent t i (.timerCancel n) = .ok (.next, t))
  ∧ drain 10 (liveTimeline [.timerStart 10 (.ext 0), .timerCancel 0]) 0
      = .ok (.drained, cancelDrained)
  ∧ cancelDrained.pendingTimers = [(2, 10)]
  ∧ fireTimer cancelDrained 2
      = .ok (4, { cancelDrained with
          history := cancelDrained.history ++ [.timerResolve 2 false .undef] }) :=
  ⟨fun _ _ _ => rfl, rfl, rfl, rfl⟩

/-- C8: processing `TimerStart` synthesizes exactly a `PromiseCreate`
followed by a `PromiseRegister` for the new task id (the index of the
synthesized `PromiseCreate`); only in live mode is a real-time wait
additionally recorded, and that wait, upon elapsing, appends a
`TimerResolve` for the synthesized task; in replay mode the pending
waits are unchanged (no new wait is issued). -/
theorem timer_start_synthesis (t : Timeline) (ms : Nat) (cb : Callback) (i tid : Nat) :
    (t.isReplay = false →
       processEvent t i (.timerStart ms cb)
         = .ok (.next, { t with
             history := t.history ++ [.promiseCreate, .promiseRegister t.history.length cb],
             pendingTimers := t.pendingTimers ++ [(t.history.length, ms)] }))
  ∧ (∀ t2, t.isReplay = true →
       processEvent t i (.timerStart ms cb) = .ok (.next, t2) →
       t2.pendingTimers = t.pendingTimers)
  ∧ (t.isReplay = false →
       fireTimer t tid = .ok (t.history.length,
         { t with history := t.history ++ [.timerResolve tid false .undef] })) := by
  refine ⟨?_, ?_, ?_⟩
  · intro hlive
    simp [processEvent, enqueueEvent, hlive]
  · intro t2 hrep hok
    simp only [processEvent] at hok
    cases h1 : enqueueEvent t .promiseCreate with
    | error e => rw [h1] at hok; simp at hok
    | ok p =>
      obtain ⟨tid1, ta⟩ := p
      rw [h1] at hok
      simp only [] at hok
      cases h2 : enqueueEvent ta (.promiseRegister tid1 cb) with
      | error e => rw [h2] at hok; simp at hok
      | ok q =>
        obtain ⟨tid2, tb⟩ := q
        rw [h2] at hok
        have hpa := enqueueEvent_preserves h1
        have hpb := enqueueEvent_preserves h2
        have hrb : tb.isReplay = true := by rw [hpb.1, hpa.1, hrep]
        simp only [hrb, Bool.not_true, Bool.false_eq_true, if_false,
          Except.ok.injEq, Prod.mk.injEq] at hok
        rw [← hok.2, hpb.2.1, hpa.2.1]
  · intro hlive
    simp [fireTimer, enqueueEvent, hlive]

/-- C8 witness: live `TimerStart` on an empty timeline synthesizes the
pair and records the wait; the mid-replay `TimerStart` matches its
recorded synthesized pair and records no wait; a recorded wait fires by
appending a `TimerResolve`. -/
theorem timer_start_synthesis_witness :
    processEvent (liveTimeline []) 0 (.timerStart 7 (.ext 4))
      = .ok (.next, { liveTimeline [] with
          history := [.promiseCreate, .promiseRegister 0 (.ext 4)],
          pendingTimers := [(0, 7)] })
  ∧ ({ replayTimerStart with replayIndex := 2 } : Timeline).pendingTimers
      = replayTimerStart.pendingTimers
  ∧ fireTimer (liveTimeline []) 3
      = .ok (0, { liveTimeline [] with history := [.timerResolve 3 false .undef] }) := by
  refine ⟨?_, ?_, ?_⟩
  · exact (timer_start_synthesis (liveTimeline []) 7 (.ext 4) 0 0).1 rfl
  · exact (timer_start_synthesis replayTimerStart 5 (.ext 1) 0 0).2.1
      { replayTimerStart with replayIndex := 2 } rfl rfl
  · exact (timer_start_synthesis (liveTimeline []) 0 (.ext 0) 0 3).2.2 rfl

/-- C9: a task id equals the log index of the `PromiseCreate` that
allocated it: a successful append of a `PromiseCreate` stores it at the
returned index (in live and replay mode alike), and the run loop,
processing the `PromiseCreate` found at index `i`, installs the
`CREATED` task state under exactly the key `i`. -/
theorem task_id_is_create_index (t : Timeline) :
    (∀ i t2, enqueueEvent t .promiseCreate = .ok (i, t2) →
       t2.history.get? i = some .promiseCreate)
  ∧ (∀ i, t.history.get? i = some .promiseCreate →
       processEvent t i .promiseCreate
         = .ok (.next, { t with tasks := mapSet t.tasks i (.created []) })
       ∧ mapGet (mapSet t.tasks i (.created [])) i = some (.created [])) := by
  constructor
  · intro i t2 h
    exact enqueueEvent_ok_stored h
  · intro i hev
    exact ⟨rfl, mapGet_mapSet t.tasks i (.created [])⟩

/-- C9 witness: appending `PromiseCreate` to an empty live timeline
returns index 0 and stores it there; processing it installs task 0. -/
theorem task_id_is_create_index_witness :
    (liveTimeline [.promiseCreate]).history.get? 0 = some .promiseCreate
  ∧ processEvent (liveTimeline [.promiseCreate]) 0 .promiseCreate
      = .ok (.next, { liveTimeline [.promiseCreate] with
          tasks := mapSet [] 0 (.created []) })
  ∧ mapGet (mapSet [] 0 (.created [])) 0 = some (.created []) := by
  have h1 := (task_id_is_create_index (liveTimeline [])).1 0
    (liveTimeline [.promiseCreate]) rfl
  have h2 := (task_id_is_create_index (liveTimeline [.promiseCreate])).2 0 rfl
  exact ⟨h1, h2.1, h2.2⟩

/-- C10: a `PromiseRegister` for a task in the `REJECTED` state is
silently discarded: the register switch handles only the `RESOLVED` and
`CREATED` states, so the timeline is returned unchanged — the callback
is not invoked (trace unchanged), not stored (tasks unchanged), and no
`PromiseComplete` is appended (history unchanged). -/
theorem register_on_rejected_discarded (t : Timeline) (taskId i : Nat) (cb : Callback)
    (cbs : List Callback) (err : Value)
    (h : mapGet t.tasks taskId = some (.rejected cbs err)) :
    processEvent t i (.promiseRegister taskId cb) = .ok (.next, t) := by
  simp [processEvent, getTaskState, h]

/-- C10 witness: registering on the rejected task 3 leaves the timeline
untouched. -/
theorem register_on_rejected_discarded_witness :
    processEvent withRejected 0 (.promiseRegister 3 (.ext 1)) = .ok (.next, withRejected) :=
  register_on_rejected_discarded withRejected 3 0 (.ext 1) [] (.str "boom") rfl

end Engine
